import Mathlib

/-!
Verification of the LavaCast 40 channel lifecycle controller.

Shallow embedding of the Python sources (`streamer.py`, `transcoder.py`,
`uploader.py`, `app.py`) and proofs about them.  Python floats are modelled
as exact rationals (`ℚ`); Python `int(x)` truncation is `pyInt`; fallible
Python code (code that can raise) returns `Option`.  Python dicts keyed by
channel id are association lists with insertion-order semantics (`dset`
updates in place or appends, matching `d[k] = v`).
-/

/-- Python `int(x)` on a float: truncation toward zero. -/
def pyInt (q : ℚ) : Int :=
  if q < 0 then ⌈q⌉ else ⌊q⌋

/-- Value of a list of decimal digit characters, most significant first. -/
def digitsToNat (l : List Char) : Nat :=
  l.foldl (fun a c => a * 10 + (c.toNat - 48)) 0

/-- Python `float(s)` for the decimal literals `digits` / `digits.digits`
that reach the code under verification.  `none` models `ValueError`.
(Python `float` also accepts signs, exponents, `inf` …; those forms are not
produced by the validated call sites.) -/
def pyFloat (s : String) : Option ℚ :=
  let l := s.data
  let ip := l.takeWhile Char.isDigit
  let rest := l.drop ip.length
  if ip = [] then none
  else
    match rest with
    | [] => some (digitsToNat ip)
    | c :: fp =>
      if c = Char.ofNat 46 ∧ fp ≠ [] ∧ fp.all Char.isDigit then
        some ((digitsToNat ip : ℚ) + (digitsToNat fp : ℚ) / (10 ^ fp.length))
      else none

/-- Python `int(s)` for unsigned decimal strings; `none` models `ValueError`. -/
def pyIntOfStr (s : String) : Option Int :=
  if s.data ≠ [] ∧ s.data.all Char.isDigit then some (digitsToNat s.data) else none

/-- Python `s.lower()`. -/
def strToLower (s : String) : String := String.mk (s.data.map Char.toLower)

/-- Python `s.upper()`. -/
def strToUpper (s : String) : String := String.mk (s.data.map Char.toUpper)

/-- Python `s.strip()`: drop leading and trailing whitespace. -/
def pyStrip (s : String) : String :=
  String.mk (((s.data.dropWhile Char.isWhitespace).reverse.dropWhile Char.isWhitespace).reverse)

/-- Dict read `d.get(k)` on an association list. -/
def dget {α : Type} (k : Nat) : List (Nat × α) → Option α
  | [] => none
  | p :: r => if p.1 = k then some p.2 else dget k r

/-- Dict write `d[k] = v`: update in place when the key is present,
append otherwise (Python dicts preserve insertion order). -/
def dset {α : Type} (k : Nat) (v : α) (l : List (Nat × α)) : List (Nat × α) :=
  if l.any (fun p => p.1 == k) then
    l.map (fun p => if p.1 = k then (k, v) else p)
  else l ++ [(k, v)]

/-- Dict removal `d.pop(k, None)` (the mapping part). -/
def dpop {α : Type} (k : Nat) (l : List (Nat × α)) : List (Nat × α) :=
  l.filter (fun p => p.1 != k)

/-! ## transcoder.py — validation constants, probing helpers, specs_match -/

/-- Source: `transcoder.VALID_CODECS` -/
def VALID_CODECS : List String := ["copy", "h264", "h265"]

/-- Source: `transcoder.VALID_PRESETS` -/
def VALID_PRESETS : List String := ["ultrafast", "superfast", "fast", "medium", "slow"]

/-- Source: `transcoder.VALID_RESOLUTIONS` -/
def VALID_RESOLUTIONS : List String := ["original", "720p", "1080p", "1440p", "4k"]

/-- Source: `transcoder.VALID_FPS` -/
def VALID_FPS : List String :=
  ["original", "23.976", "24", "25", "29.97", "30", "50", "59.94", "60"]

/-- The record built by `transcoder.probe_video_info`.  The probe defaults a
missing video/audio codec to the empty string (Python `None` / `""` are both
falsy where the record is consumed); numeric fields default to 0. -/
structure MediaInfo where
  vcodec : String
  width : Nat
  height : Nat
  fps : ℚ
  vbitrate_bps : Nat
  acodec : String
  abitrate_bps : Nat
deriving DecidableEq

/-- Source: `transcoder._RES_MAP` -/
def RES_MAP : String → Option (Nat × Nat)
  | "720p" => some (1280, 720)
  | "1080p" => some (1920, 1080)
  | "1440p" => some (2560, 1440)
  | "4k" => some (3840, 2160)
  | _ => none

/-- Source: `transcoder._FPS_FLOAT` (the Python table stores the nearest doubles of
these rationals; the 0.1 fps tolerance swamps that rounding). -/
def FPS_FLOAT : String → Option ℚ
  | "23.976" => some (24000 / 1001)
  | "29.97" => some (30000 / 1001)
  | "59.94" => some (60000 / 1001)
  | _ => none

/-- Source: `float(_FPS_FLOAT.get(fps, fps))` in `specs_match`: table hit, else parse
the string.  `none` models the `ValueError` that `float` raises. -/
def fpsTarget (fps : String) : Option ℚ :=
  match FPS_FLOAT fps with
  | some q => some q
  | none => pyFloat fps

/-- Source: `transcoder._parse_bitrate`: `"6M"`/`"192k"`/plain int → bits per second,
0 on parse failure (the `except` branch). -/
def parse_bitrate (s : String) : Int :=
  let t := strToUpper (pyStrip s)
  let l := t.data
  match l.getLast? with
  | some c =>
    if c = Char.ofNat 77 then    -- M
      match pyFloat (String.mk l.dropLast) with
      | some q => pyInt (q * 1000000)
      | none => 0
    else if c = Char.ofNat 75 then    -- K
      match pyFloat (String.mk l.dropLast) with
      | some q => pyInt (q * 1000)
      | none => 0
    else
      match pyIntOfStr t with
      | some n => n
      | none => 0
  | none =>
    match pyIntOfStr t with
    | some n => n
    | none => 0

/-- Resolution gate of `specs_match`: `target_wh and (w, h) != target_wh`. -/
def resMismatch (resolution : String) (i : MediaInfo) : Bool :=
  match RES_MAP resolution with
  | some wh => decide ((i.width, i.height) ≠ wh)
  | none => false

/-- Video/audio bitrate gates at the end of `specs_match` (source may exceed
the target by at most 20 %; a zero/unknown value on either side skips the
check — Python integer truthiness). -/
def bitrate_gates (i : MediaInfo) (vbitrate abitrate : String) : Option Bool :=
  let tv := parse_bitrate vbitrate
  if tv ≠ 0 ∧ i.vbitrate_bps ≠ 0 ∧ (tv : ℚ) * (12 / 10) < (i.vbitrate_bps : ℚ) then
    some false
  else
    let ta := parse_bitrate abitrate
    if ta ≠ 0 ∧ i.abitrate_bps ≠ 0 ∧ (ta : ℚ) * (12 / 10) < (i.abitrate_bps : ℚ) then
      some false
    else some true

/-- Frame-rate gate of `specs_match` for a non-"original" target: look up or
parse the target fps (`none` models the `ValueError` that `float` raises on
an unparseable string), then reject only when both rates are known (nonzero)
and differ by more than 0.1. -/
def fps_gate (i : MediaInfo) (fps vbitrate abitrate : String) : Option Bool :=
  match fpsTarget fps with
  | none => none
  | some tf =>
    if tf ≠ 0 ∧ i.fps ≠ 0 ∧ (1 : ℚ) / 10 < |i.fps - tf| then some false
    else bitrate_gates i vbitrate abitrate

/-- Source: `transcoder.specs_match`.  `info = none` models the empty probe record
`{}`; the overall `none` result models the `ValueError` escaping from
`float(fps)` (only reachable for an unparseable non-table `fps`). -/
def specs_match (info : Option MediaInfo)
    (codec resolution fps vbitrate abitrate : String) : Option Bool :=
  match info with
  | none => some false
  | some i =>
    if i.vcodec = "" then some false
    else if strToLower i.vcodec ≠ (if codec = "h264" then "h264" else "hevc") then some false
    else if strToLower i.acodec ≠ "aac" then some false
    else if resolution ≠ "original" ∧ resMismatch resolution i = true then some false
    else if fps = "original" then bitrate_gates i vbitrate abitrate
    else fps_gate i fps vbitrate abitrate

/-! ## C2 — smart-ingest decision -/

/-- Claim C2 read literally: `specs_match` is true iff the probe record is
non-empty with a video codec, the video codec matches the target
(h264→h264, h265→hevc), the audio codec is AAC, a non-original resolution
matches exactly, a non-original fps is within 0.1, and each known source
bitrate is at most 1.2 × its target. -/
def specs_match_claim (info : Option MediaInfo)
    (codec resolution fps vbitrate abitrate : String) : Prop :=
  ∃ i, info = some i ∧
    i.vcodec ≠ "" ∧
    ((codec = "h264" ∧ strToLower i.vcodec = "h264") ∨
      (codec = "h265" ∧ strToLower i.vcodec = "hevc")) ∧
    strToLower i.acodec = "aac" ∧
    (resolution ≠ "original" → ∀ wh, RES_MAP resolution = some wh → (i.width, i.height) = wh) ∧
    (fps ≠ "original" → ∀ tf, fpsTarget fps = some tf → |i.fps - tf| ≤ 1 / 10) ∧
    (i.vbitrate_bps ≠ 0 → (i.vbitrate_bps : ℚ) ≤ (parse_bitrate vbitrate : ℚ) * (12 / 10)) ∧
    (i.abitrate_bps ≠ 0 → (i.abitrate_bps : ℚ) ≤ (parse_bitrate abitrate : ℚ) * (12 / 10))

/-- Claim C2 amended: the fps tolerance check applies only when both the
parsed target fps and the probed source fps are nonzero, and each bitrate
headroom check applies only when both the parsed target bitrate and the
probed source bitrate are nonzero (unknown values never block the remux). -/
def specs_match_amended_core (i : MediaInfo)
    (codec resolution fps vbitrate abitrate : String) : Prop :=
  i.vcodec ≠ "" ∧
  ((codec = "h264" ∧ strToLower i.vcodec = "h264") ∨
    (codec = "h265" ∧ strToLower i.vcodec = "hevc")) ∧
  strToLower i.acodec = "aac" ∧
  (resolution ≠ "original" → ∀ wh, RES_MAP resolution = some wh → (i.width, i.height) = wh) ∧
  (fps ≠ "original" → ∀ tf, fpsTarget fps = some tf → tf ≠ 0 → i.fps ≠ 0 →
    |i.fps - tf| ≤ 1 / 10) ∧
  (parse_bitrate vbitrate ≠ 0 → i.vbitrate_bps ≠ 0 →
    (i.vbitrate_bps : ℚ) ≤ (parse_bitrate vbitrate : ℚ) * (12 / 10)) ∧
  (parse_bitrate abitrate ≠ 0 → i.abitrate_bps ≠ 0 →
    (i.abitrate_bps : ℚ) ≤ (parse_bitrate abitrate : ℚ) * (12 / 10))

/-- Claim C2 amended, lifted to the optional probe record. -/
def specs_match_amended (info : Option MediaInfo)
    (codec resolution fps vbitrate abitrate : String) : Prop :=
  ∃ i, info = some i ∧ specs_match_amended_core i codec resolution fps vbitrate abitrate

/-! ## C3 — transcode progress reporting (TranscodeJob._run) -/

/-- Source: `pct = min(99, int(us / (duration * 1_000_000) * 100))` when the probed
duration (seconds) and parsed `out_time_us` are positive, else 0
(the `pct = eta = 0` branch). -/
def progressPct (duration : ℚ) (us : Int) : Int :=
  if 0 < duration ∧ 0 < us then
    min 99 (pyInt ((us : ℚ) / (duration * 1000000) * 100))
  else 0

/-- Source: `eta = int((elapsed / pct) * (100 - pct)) if pct > 0 else 0`, under the
same duration/out-time guard. -/
def progressEta (duration elapsed : ℚ) (us : Int) : Int :=
  if 0 < duration ∧ 0 < us then
    if 0 < progressPct duration us then
      pyInt (elapsed / (progressPct duration us : ℚ) * (100 - (progressPct duration us : ℚ)))
    else 0
  else 0

/-- The pct values one run reports: one per parsed progress block, plus the
single final 100 tick emitted on clean exit (`rc = 0`) while still active. -/
def emittedPcts (duration : ℚ) (usList : List Int) (rc : Int) (active : Bool) : List Int :=
  usList.map (progressPct duration) ++ (if rc = 0 ∧ active = true then [100] else [])

/-! ## C7 — TranscodeJob run termination events -/

/-- Callbacks a transcode job can deliver. -/
inductive TCEvent where
  | progress (pct eta : Int)
  | complete (dst : String)
  | error (msg : String)
deriving DecidableEq

/-- The callbacks the tail of `TranscodeJob._run` fires once the child has
exited with code `rc`, given the job's `active` flag as the loop observed
it: a final 100 tick then completion on clean active exit, an error naming
the code on nonzero active exit, nothing when cancelled. -/
def finishRun (rc : Int) (active : Bool) (dst : String) : List TCEvent :=
  if rc = 0 ∧ active = true then
    [TCEvent.progress 100 0, TCEvent.complete dst]
  else if active = true then
    [TCEvent.error ("FFmpeg exited with code " ++ toString rc)]
  else []

/-- Source: `TranscodeJob.cancel` clears the active flag (and terminates the child);
the run loop then breaks and `finishRun` sees `active = false`. -/
def cancelActive (_active : Bool) : Bool := false

/-! ## streamer.py — StreamChannel and StreamManager -/

/-- Source: `streamer.StreamChannel`: the fields of one streaming worker.  `bitrate`
and `nic` use `Option` for Python `None` (constructor and setters normalise
falsy values to `None`). -/
structure StreamChannel where
  cid : Nat
  filepath : String
  ip : String
  port : Nat
  encap : String
  bitrate : Option String
  loop : Bool
  nic : Option String
  pre_transcoded : Bool
  running : Bool
deriving DecidableEq

/-- Source: `StreamChannel.update_settings`: stop a running worker, apply the
non-None settings (`bitrate`/`nic` normalise `""` to `None`, `port` coerced
to int), return whether it was running. -/
def update_settings (ch : StreamChannel) (ip : Option String) (port : Option Nat)
    (encap : Option String) (bitrate : Option String) (loop : Option Bool)
    (nic : Option String) : StreamChannel × Bool :=
  let was := ch.running
  let ch1 := if was then { ch with running := false } else ch
  let ch2 := match ip with | some v => { ch1 with ip := v } | none => ch1
  let ch3 := match port with | some v => { ch2 with port := v } | none => ch2
  let ch4 := match encap with | some v => { ch3 with encap := v } | none => ch3
  let ch5 := match bitrate with
    | some v => { ch4 with bitrate := if v = "" then none else some v }
    | none => ch4
  let ch6 := match loop with | some v => { ch5 with loop := v } | none => ch5
  let ch7 := match nic with
    | some v => { ch6 with nic := if v = "" then none else some v }
    | none => ch6
  (ch7, was)

/-- Source: `StreamChannel._to_kbps`: `"4M"`-style value → kbps; suffix `M` scales
by 1000, `K` takes the integer part, anything else yields 4000.  `none`
models the uncaught ValueError on an unparseable numeric part (caught by
the thread wrapper in `_run`). -/
def to_kbps (bitrate : Option String) : Option Int :=
  let b := strToUpper (match bitrate with
    | some s => if s = "" then "4M" else s
    | none => "4M")
  let l := b.data
  match l.getLast? with
  | some c =>
    if c = Char.ofNat 77 then    -- M
      match pyFloat (String.mk l.dropLast) with
      | some q => some (pyInt (q * 1000))
      | none => none
    else if c = Char.ofNat 75 then    -- K
      match pyIntOfStr (String.mk l.dropLast) with
      | some n => some n
      | none => none
    else some 4000
  | none => some 4000

/-- Source: `StreamChannel._build_cmd`.  `nicIp` is the `_nic_ip` OS query result
(`None` when no NIC is configured or the ioctl fails); the result is the
FFmpeg argv.  `none` models the exception escaping from `_to_kbps`. -/
def build_cmd (ch : StreamChannel) (nicIp : Option String) : Option (List String) :=
  let params := "pkt_size=1316&ttl=10" ++
    (match nicIp with | some i => "&localaddr=" ++ i | none => "")
  let url := (if ch.encap = "rtp" then "rtp://" else "udp://") ++ ch.ip ++ ":" ++
    toString ch.port ++ "?" ++ params
  let fmt := if ch.encap = "rtp" then "rtp_mpegts" else "mpegts"
  let cmd := ["ffmpeg", "-re"] ++ (if ch.loop then ["-stream_loop", "-1"] else []) ++
    ["-i", ch.filepath]
  if ch.pre_transcoded = true ∨ ch.bitrate.getD "" = "" then
    some (cmd ++ ["-c", "copy"] ++ ["-f", fmt, url])
  else
    match ch.bitrate, to_kbps ch.bitrate with
    | some b, some kbps =>
      some (cmd ++ ["-b:v", b, "-maxrate", b, "-bufsize", toString (kbps * 2) ++ "k"]
        ++ ["-f", fmt, url])
    | _, _ => none

/-- One entry of `StreamManager.metadata`: the UI-visible channel state as
written by `add_channel`.  `thumb = none` models the key being absent after
a state restore (`_load_state` writes every saved key plus `running` only). -/
structure ChannelMeta where
  filename : String
  filepath : String
  src_path : String
  ip : String
  port : Nat
  encap : String
  bitrate : String
  loop : Bool
  running : Bool
  pre_transcoded : Bool
  thumb : Option String
  codec : String
  preset : String
  vbitrate : String
  abitrate : String
deriving DecidableEq

/-- The mutable state of `streamer.StreamManager` (the channel registry).
`transcode_jobs` maps a cid to its in-flight job's active flag. -/
structure ManagerState where
  max_channels : Nat
  base_port : Nat
  multicast_base : String
  default_encap : String
  default_loop : Bool
  channels : List (Nat × StreamChannel)
  metadata : List (Nat × ChannelMeta)
  transcode_jobs : List (Nat × Bool)
  global_bitrate : Option String
  selected_nic : Option String
  media_path : String
  global_tc : List (String × String)
  monitor_nic : String
  auto_start : Bool
deriving DecidableEq

/-- Source: `StreamManager._auto_ip` -/
def auto_ip (st : ManagerState) (cid : Nat) : String :=
  st.multicast_base ++ "." ++ toString (cid % 254 + 1)

/-- Source: `StreamManager._auto_port` -/
def auto_port (st : ManagerState) (cid : Nat) : Nat :=
  st.base_port + cid * 2

/-- Source: `src_path or filepath` in `add_channel`: Python falsy semantics (None or
empty string fall back to the prepared path). -/
def src_path_or (sp : Option String) (filepath : String) : String :=
  match sp with
  | some s => if s = "" then filepath else s
  | none => filepath

/-- Source: `StreamManager.add_channel`: register or update a channel and return the
new state plus the (ip, port) pair.  An existing worker is only rebound to
the new filepath and pre-transcoded flag; a fresh worker is created at the
deterministic address; the metadata entry is rebuilt from scratch. -/
def add_channel (st : ManagerState) (cid : Nat) (filepath filename : String)
    (pre_transcoded : Bool) (src_path : Option String)
    (codec preset vbitrate abitrate : String) : ManagerState × String × Nat :=
  let ip := auto_ip st cid
  let port := auto_port st cid
  let prev := dget cid st.metadata
  let channels :=
    match dget cid st.channels with
    | some ch =>
      dset cid { ch with filepath := filepath, pre_transcoded := pre_transcoded }
        st.channels
    | none =>
      dset cid
        { cid := cid, filepath := filepath, ip := ip, port := port,
          encap := (prev.map (fun m => m.encap)).getD st.default_encap,
          bitrate := st.global_bitrate,
          loop := (prev.map (fun m => m.loop)).getD st.default_loop,
          nic := st.selected_nic,
          pre_transcoded := pre_transcoded, running := false } st.channels
  let meta : ChannelMeta :=
    { filename := filename, filepath := filepath,
      src_path := src_path_or src_path filepath,
      ip := ip, port := port,
      encap := (prev.map (fun m => m.encap)).getD st.default_encap,
      bitrate := st.global_bitrate.getD "",
      loop := (prev.map (fun m => m.loop)).getD st.default_loop,
      running := false, pre_transcoded := pre_transcoded,
      thumb := some ("/static/thumbnails/ch" ++ toString cid ++ ".jpg"),
      codec := codec, preset := preset, vbitrate := vbitrate, abitrate := abitrate }
  ({ st with channels := channels, metadata := dset cid meta st.metadata }, ip, port)

/-- Source: `StreamManager.is_running` -/
def is_running (st : ManagerState) (cid : Nat) : Bool :=
  match dget cid st.channels with
  | some ch => ch.running
  | none => false

/-- Source: `StreamManager.get_status`: metadata snapshot with the live running flag. -/
def get_status (st : ManagerState) : List (Nat × ChannelMeta) :=
  st.metadata.map (fun p => (p.1, { p.2 with running := is_running st p.1 }))

/-- Source: `StreamManager.stop`: stop the worker, clear the metadata running flag. -/
def stop_channel (st : ManagerState) (cid : Nat) : ManagerState :=
  match dget cid st.channels with
  | some ch =>
    { st with
      channels := dset cid { ch with running := false } st.channels,
      metadata := match dget cid st.metadata with
        | some m => dset cid { m with running := false } st.metadata
        | none => st.metadata }
  | none => st

/-- Source: `StreamManager.cancel_transcode`: pop the job entry; the popped job is
cancelled (its active flag cleared) and leaves the registry. -/
def cancel_transcode (st : ManagerState) (cid : Nat) : ManagerState :=
  { st with transcode_jobs := dpop cid st.transcode_jobs }

/-- Source: `StreamManager.remove_channel`: cancel the transcode job, stop the
worker, drop both registry entries.  The Python function has no `return`
statement, so its value is `None`: the second component models that return
value — it never carries file paths. -/
def remove_channel (st : ManagerState) (cid : Nat) :
    ManagerState × Option (List String) :=
  let st1 := cancel_transcode st cid
  let st2 := stop_channel st1 cid
  ({ st2 with channels := dpop cid st2.channels, metadata := dpop cid st2.metadata },
    none)

/-- Source: `app.remove` (the DELETE route): read the metadata entry, call
`remove_channel`, then erase `src_path`/`filepath` (a Python set literal,
so deduplicated) and the thumbnail file.  The list is the set of paths the
route erases. -/
def remove_route (st : ManagerState) (cid : Nat) (thumbDir : String) :
    ManagerState × List String :=
  let meta := dget cid st.metadata
  let st1 := (remove_channel st cid).1
  (st1,
    (match meta with
     | some m => if m.src_path = m.filepath then [m.src_path] else [m.src_path, m.filepath]
     | none => []) ++ [thumbDir ++ "/ch" ++ toString cid ++ ".jpg"])

/-- Keyword arguments of `update_channel`; `none` = key absent.  (The HTTP
route drops None-valued keys before the call, so key-present-with-None is
not reachable from the API.) -/
structure UpdateKw where
  ip : Option String := none
  port : Option Nat := none
  encap : Option String := none
  bitrate : Option String := none
  loop : Option Bool := none
  nic : Option String := none
  codec : Option String := none
  preset : Option String := none
  vbitrate : Option String := none
  abitrate : Option String := none
deriving DecidableEq

/-- Source: `net_kw` of `update_channel` is non-empty: some key outside the `_TC`
profile set `{codec, preset, vbitrate, abitrate}` is present. -/
def net_present (kw : UpdateKw) : Bool :=
  kw.ip.isSome || kw.port.isSome || kw.encap.isSome || kw.bitrate.isSome ||
    kw.loop.isSome || kw.nic.isSome

/-- The metadata write loop of `update_channel`: keys present in the
metadata dict or in `_TC` are written (`port` coerced to int); `nic` is in
neither, so it is skipped. -/
def meta_update (m : ChannelMeta) (kw : UpdateKw) : ChannelMeta :=
  { m with
    ip := kw.ip.getD m.ip,
    port := kw.port.getD m.port,
    encap := kw.encap.getD m.encap,
    bitrate := kw.bitrate.getD m.bitrate,
    loop := kw.loop.getD m.loop,
    codec := kw.codec.getD m.codec,
    preset := kw.preset.getD m.preset,
    vbitrate := kw.vbitrate.getD m.vbitrate,
    abitrate := kw.abitrate.getD m.abitrate }

/-- Source: `StreamManager.update_channel`: unknown cid is a no-op returning false;
network keys go through `update_settings` (mutating the worker in place),
profile-only calls never touch the worker; metadata is updated either way;
returns was_running. -/
def update_channel (st : ManagerState) (cid : Nat) (kw : UpdateKw) :
    ManagerState × Bool :=
  match dget cid st.channels with
  | none => (st, false)
  | some ch =>
    let r :=
      if net_present kw then
        let s := update_settings ch kw.ip kw.port kw.encap kw.bitrate kw.loop kw.nic
        ({ st with channels := dset cid s.1 st.channels }, s.2)
      else (st, false)
    let st2 := match dget cid r.1.metadata with
      | some m => { r.1 with metadata := dset cid (meta_update m kw) r.1.metadata }
      | none => r.1
    (st2, r.2)

/-- Source: `self.metadata[cid].get("pre_transcoded")` as consulted by
`apply_global_bitrate` (in reachable states every cid in `channels` also
has a metadata entry). -/
def meta_pre_tc (st : ManagerState) (cid : Nat) : Bool :=
  match dget cid st.metadata with
  | some m => m.pre_transcoded
  | none => false

/-- Source: `StreamManager.apply_global_bitrate`: set the global cap, push it to
every worker whose metadata is not pre-transcoded, and mirror it into the
metadata of every cid that has a worker. -/
def apply_global_bitrate (st : ManagerState) (bitrate : String) : ManagerState :=
  let gb : Option String := if bitrate = "" then none else some bitrate
  { st with
    global_bitrate := gb,
    channels := st.channels.map (fun p =>
      (p.1, if meta_pre_tc st p.1 = false then { p.2 with bitrate := gb } else p.2)),
    metadata := st.metadata.map (fun p =>
      if st.channels.any (fun q => q.1 == p.1) then
        (p.1, { p.2 with bitrate := gb.getD "" })
      else p) }

/-! ## streamer.py — state persistence (_save_state / _load_state) -/

/-- Python `k.startswith("_")`. -/
def startsWithUnderscore (s : String) : Bool :=
  match s.data with
  | [] => false
  | c :: _ => c = Char.ofNat 95

/-- A persisted per-channel record: the metadata minus the transient
`running` and `thumb` keys (`_save_state`'s `_clean`). -/
structure ChannelDoc where
  filename : String
  filepath : String
  src_path : String
  ip : String
  port : Nat
  encap : String
  bitrate : String
  loop : Bool
  pre_transcoded : Bool
  codec : String
  preset : String
  vbitrate : String
  abitrate : String
deriving DecidableEq

/-- The `channel_state.json` document.  The fixed `_readme` comment entries
`_save_state` inserts are omitted (every key beginning with `_` is skipped
on load, and the round-trip claim compares documents modulo such keys);
`channels` keys carry the integers the decimal key strings encode
(`str(cid)` on save, `int(cid_str)` on load). -/
structure StateDoc where
  global_tc : List (String × String)
  global_bitrate : String
  selected_nic : String
  monitor_nic : String
  media_path : String
  auto_start : Bool
  channels : List (Nat × ChannelDoc)
deriving DecidableEq

/-- Source: `_clean` in `_save_state`: strip `running` and `thumb`. -/
def clean_meta (m : ChannelMeta) : ChannelDoc :=
  { filename := m.filename, filepath := m.filepath, src_path := m.src_path,
    ip := m.ip, port := m.port, encap := m.encap, bitrate := m.bitrate,
    loop := m.loop, pre_transcoded := m.pre_transcoded, codec := m.codec,
    preset := m.preset, vbitrate := m.vbitrate, abitrate := m.abitrate }

/-- Source: `StreamManager._save_state`: the document written (`x or ""` falsy
handling on the optional globals; `monitor_nic or ""` is the identity on
plain strings). -/
def save_state (st : ManagerState) : StateDoc :=
  { global_tc := st.global_tc,
    global_bitrate := st.global_bitrate.getD "",
    selected_nic := st.selected_nic.getD "",
    monitor_nic := st.monitor_nic,
    media_path := st.media_path,
    auto_start := st.auto_start,
    channels := st.metadata.map (fun p => (p.1, clean_meta p.2)) }

/-- Source: `{**m, "running": False}` for a restored channel; the `thumb` key is not
re-created. -/
def meta_from_doc (m : ChannelDoc) : ChannelMeta :=
  { filename := m.filename, filepath := m.filepath, src_path := m.src_path,
    ip := m.ip, port := m.port, encap := m.encap, bitrate := m.bitrate,
    loop := m.loop, running := false, pre_transcoded := m.pre_transcoded,
    thumb := none, codec := m.codec, preset := m.preset,
    vbitrate := m.vbitrate, abitrate := m.abitrate }

/-- The `StreamChannel` rebuilt for a restored channel; `bitrate` and `nic`
come from the just-loaded globals, not from the document. -/
def channel_from_doc (gb nic : Option String) (cid : Nat) (m : ChannelDoc) :
    StreamChannel :=
  { cid := cid, filepath := m.filepath, ip := m.ip, port := m.port,
    encap := m.encap, bitrate := gb, loop := m.loop, nic := nic,
    pre_transcoded := m.pre_transcoded, running := false }

/-- Source: `StreamManager._load_state` on a sectioned document; `fileExists` stands
in for `os.path.exists`.  Falsy strings fall through the `or` chains
exactly as in the source (for a sectioned document the flat-format
fallbacks read absent keys, i.e. `None`); channels with an empty or missing
filepath are skipped with a warning; restored entries are written with dict
assignment. -/
def load_state (fileExists : String → Bool) (st : ManagerState) (doc : StateDoc) :
    ManagerState :=
  let gb := if doc.global_bitrate = "" then none else some doc.global_bitrate
  let nic := if doc.selected_nic = "" then none else some doc.selected_nic
  let restored := doc.channels.filter
    (fun p => (p.2.filepath != "") && fileExists p.2.filepath)
  { st with
    global_bitrate := gb,
    selected_nic := nic,
    monitor_nic := doc.monitor_nic,
    auto_start := doc.auto_start,
    media_path := if doc.media_path = "" then st.media_path else doc.media_path,
    global_tc := doc.global_tc.filter (fun p => !startsWithUnderscore p.1),
    channels := restored.foldl
      (fun acc p => dset p.1 (channel_from_doc gb nic p.1 p.2) acc) st.channels,
    metadata := restored.foldl
      (fun acc p => dset p.1 (meta_from_doc p.2) acc) st.metadata }

/-- Strip the `_`-prefixed keys of the one open dict in the document (the
round-trip claim compares documents modulo those comment keys). -/
def strip_comment_keys (d : StateDoc) : StateDoc :=
  { d with global_tc := d.global_tc.filter (fun p => !startsWithUnderscore p.1) }

/-! ## Sample data used by witnesses -/

/-- A concrete worker for witness instantiations. -/
def sampleChannel : StreamChannel :=
  { cid := 0, filepath := "/media/a.ts", ip := "239.1.1.1", port := 5100,
    encap := "udp", bitrate := none, loop := true, nic := none,
    pre_transcoded := true, running := false }

/-- A concrete metadata entry for witness instantiations. -/
def sampleMeta : ChannelMeta :=
  { filename := "a.ts", filepath := "/media/a.ts", src_path := "/media/orig/a.mp4",
    ip := "239.1.1.1", port := 5100, encap := "udp", bitrate := "", loop := true,
    running := false, pre_transcoded := true,
    thumb := some "/static/thumbnails/ch0.jpg",
    codec := "h264", preset := "fast", vbitrate := "6M", abitrate := "192k" }

/-- A concrete registry for witness instantiations. -/
def sampleState : ManagerState :=
  { max_channels := 40, base_port := 5100, multicast_base := "239.1.1",
    default_encap := "udp", default_loop := true,
    channels := [(0, sampleChannel)], metadata := [(0, sampleMeta)],
    transcode_jobs := [(0, true)], global_bitrate := none, selected_nic := none,
    media_path := "/media", global_tc := [], monitor_nic := "", auto_start := false }

/-! ## C5 — state round-trip -/

/-- C5 counterexample state: a manager whose media_path is empty (reachable
with a config whose media_path is the empty string). -/
def emptyPathState : ManagerState :=
  { max_channels := 40, base_port := 5100, multicast_base := "239.1.1",
    default_encap := "udp", default_loop := true,
    channels := [], metadata := [], transcode_jobs := [],
    global_bitrate := none, selected_nic := none,
    media_path := "", global_tc := [], monitor_nic := "", auto_start := false }

/-- C5 counterexample loader: a fresh manager with a non-empty default
media path and no metadata, as `__init__` builds before `_load_state`. -/
def freshState : ManagerState :=
  { max_channels := 40, base_port := 5100, multicast_base := "239.1.1",
    default_encap := "udp", default_loop := true,
    channels := [], metadata := [], transcode_jobs := [],
    global_bitrate := none, selected_nic := none,
    media_path := "/opt/media", global_tc := [], monitor_nic := "",
    auto_start := false }

/-- Witness for C5: a one-channel document round-trips. -/
def sampleDoc : StateDoc :=
  { global_tc := [("codec", "h264"), ("preset", "fast")],
    global_bitrate := "", selected_nic := "", monitor_nic := "",
    media_path := "/opt/media", auto_start := false,
    channels := [(0, clean_meta sampleMeta)] }

/-! ## app.py — upload / retranscode parameter validation (C8) -/

/-- The character class `[kKmM]` of the bitrate regex. -/
def isKMchar (c : Char) : Bool :=
  c == Char.ofNat 107 || c == Char.ofNat 75 || c == Char.ofNat 109 || c == Char.ofNat 77

/-- Source: `app._BITRATE_RE.match`: the anchored regex `^\d+(\.\d+)?[kKmM]$`.
(`re.match` with a final `$` would also accept one trailing newline; such
values do not occur in form data.) -/
def bitrate_re_match (s : String) : Bool :=
  let l := s.data
  let ds := l.takeWhile Char.isDigit
  match l.drop ds.length with
  | [] => false
  | [c] => !ds.isEmpty && isKMchar c
  | c :: fr =>
    if c == Char.ofNat 46 then
      let fs := fr.takeWhile Char.isDigit
      match fr.drop fs.length with
      | [c2] => !ds.isEmpty && !fs.isEmpty && isKMchar c2
      | _ => false
    else false

/-- A transcode profile as carried through the app layer. -/
structure TCProfile where
  codec : String
  preset : String
  vbitrate : String
  abitrate : String
  resolution : String
  fps : String
deriving DecidableEq

/-- The sanitise block of `app.upload`: invalid codec, preset, resolution
and fps fall back to the fixed literals "copy", "fast", "original",
"original"; invalid bitrate strings fall back to the global profile.  No
value makes the upload fail. -/
def upload_sanitize (gtc : TCProfile) (tc : TCProfile) : TCProfile :=
  { codec := if tc.codec ∈ VALID_CODECS then tc.codec else "copy",
    preset := if tc.preset ∈ VALID_PRESETS then tc.preset else "fast",
    resolution := if tc.resolution ∈ VALID_RESOLUTIONS then tc.resolution
      else "original",
    fps := if tc.fps ∈ VALID_FPS then tc.fps else "original",
    vbitrate := if bitrate_re_match tc.vbitrate then tc.vbitrate else gtc.vbitrate,
    abitrate := if bitrate_re_match tc.abitrate then tc.abitrate else gtc.abitrate }

/-- The validation block of `app.retranscode`: an invalid codec fails the
request with an error; every other invalid value falls back to the global
profile. -/
def retranscode_sanitize (gtc : TCProfile) (tc : TCProfile) :
    Except String TCProfile :=
  if tc.codec ∉ VALID_CODECS then Except.error ("Invalid codec: " ++ tc.codec)
  else Except.ok
    { codec := tc.codec,
      preset := if tc.preset ∈ VALID_PRESETS then tc.preset else gtc.preset,
      resolution := if tc.resolution ∈ VALID_RESOLUTIONS then tc.resolution
        else gtc.resolution,
      fps := if tc.fps ∈ VALID_FPS then tc.fps else gtc.fps,
      vbitrate := if bitrate_re_match tc.vbitrate then tc.vbitrate else gtc.vbitrate,
      abitrate := if bitrate_re_match tc.abitrate then tc.abitrate else gtc.abitrate }

/-! ## Proofs: dictionary-model lemmas -/

theorem dget_map_update {α : Type} (k : Nat) (v : α) (l : List (Nat × α))
    (h : l.any (fun p => p.1 == k) = true) :
    dget k (l.map (fun p => if p.1 = k then (k, v) else p)) = some v := by
  induction l with
  | nil => simp at h
  | cons p r ih =>
    by_cases hp : p.1 = k
    · simp [dget, hp]
    · have h2 : (r.any fun p => p.1 == k) = true := by
        simp only [List.any_cons, Bool.or_eq_true, beq_iff_eq] at h
        tauto
      simp only [List.map_cons, if_neg hp, dget, if_neg hp]
      exact ih h2

theorem dget_append_single {α : Type} (k : Nat) (v : α) (l : List (Nat × α))
    (h : l.any (fun p => p.1 == k) = false) :
    dget k (l ++ [(k, v)]) = some v := by
  induction l with
  | nil => simp [dget]
  | cons p r ih =>
    simp only [List.any_cons, Bool.or_eq_false_iff, beq_eq_false_iff_ne, ne_eq] at h
    simp only [List.cons_append, dget, if_neg h.1]
    exact ih h.2

theorem dget_dset_self {α : Type} (k : Nat) (v : α) (l : List (Nat × α)) :
    dget k (dset k v l) = some v := by
  unfold dset
  cases hany : l.any (fun p => p.1 == k) with
  | true => simpa [hany] using dget_map_update k v l hany
  | false => simpa [hany] using dget_append_single k v l hany

theorem dget_dpop_self {α : Type} (k : Nat) (l : List (Nat × α)) :
    dget k (dpop k l) = none := by
  induction l with
  | nil => rfl
  | cons p r ih =>
    by_cases h : p.1 = k
    · simpa [dpop, h] using ih
    · simpa [dpop, dget, h] using ih

theorem dget_map_val {α β : Type} (k : Nat) (f : Nat × α → β) (l : List (Nat × α)) :
    dget k (l.map (fun p => (p.1, f p))) = (dget k l).map (fun a => f (k, a)) := by
  induction l with
  | nil => rfl
  | cons p r ih =>
    by_cases h : p.1 = k
    · subst h; simp [dget]
    · simpa [dget, h] using ih

/-! ## Proofs: C2 — smart-ingest decision -/

theorem ite_some_false_eq (c : Prop) [Decidable c] (X : Option Bool) :
    (if c then some false else X) = some true ↔ ¬c ∧ X = some true := by
  split_ifs with h <;> simp [h]

theorem bitrate_gates_iff (i : MediaInfo) (vbitrate abitrate : String) :
    bitrate_gates i vbitrate abitrate = some true ↔
      (parse_bitrate vbitrate ≠ 0 → i.vbitrate_bps ≠ 0 →
        (i.vbitrate_bps : ℚ) ≤ (parse_bitrate vbitrate : ℚ) * (12 / 10)) ∧
      (parse_bitrate abitrate ≠ 0 → i.abitrate_bps ≠ 0 →
        (i.abitrate_bps : ℚ) ≤ (parse_bitrate abitrate : ℚ) * (12 / 10)) := by
  unfold bitrate_gates
  dsimp only
  split_ifs with h1 h2
  · constructor
    · intro h; exact absurd h (by simp)
    · rintro ⟨hA, hB⟩
      rcases h1 with ⟨t1, t2, t3⟩
      exact absurd (hA t1 t2) (not_le.mpr (by linarith))
  · constructor
    · intro h; exact absurd h (by simp)
    · rintro ⟨hA, hB⟩
      rcases h2 with ⟨t1, t2, t3⟩
      exact absurd (hB t1 t2) (not_le.mpr (by linarith))
  · push_neg at h1 h2
    constructor
    · intro _
      refine ⟨fun a b => ?_, fun a b => ?_⟩
      · have := h1 a b; linarith
      · have := h2 a b; linarith
    · intro _; rfl

theorem fpsTarget_some_of_valid (fps : String) (hf : fps ∈ VALID_FPS)
    (h0 : fps ≠ "original") : ∃ tf, fpsTarget fps = some tf := by
  simp only [VALID_FPS, List.mem_cons, List.not_mem_nil, or_false] at hf
  rcases hf with rfl | rfl | rfl | rfl | rfl | rfl | rfl | rfl | rfl
  · exact absurd rfl h0
  all_goals exact ⟨_, rfl⟩

/-- C2 (amended): for the valid target values (`codec` one of h264/h265,
`fps` in the validated set), `specs_match` returns true exactly under the
amended conjunction of conditions. -/
theorem c2_specs_match_characterisation (info : Option MediaInfo)
    (codec resolution fps vbitrate abitrate : String)
    (hc : codec = "h264" ∨ codec = "h265") (hf : fps ∈ VALID_FPS) :
    specs_match info codec resolution fps vbitrate abitrate = some true ↔
      specs_match_amended info codec resolution fps vbitrate abitrate := by
  cases info with
  | none =>
    simp [specs_match, specs_match_amended]
  | some i =>
    simp only [specs_match_amended, Option.some.injEq, exists_eq_left']
    have hcm : (strToLower i.vcodec = (if codec = "h264" then "h264" else "hevc")) ↔
        ((codec = "h264" ∧ strToLower i.vcodec = "h264") ∨
          (codec = "h265" ∧ strToLower i.vcodec = "hevc")) := by
      rcases hc with rfl | rfl
      · rw [if_pos rfl]
        constructor
        · exact fun h => Or.inl ⟨rfl, h⟩
        · rintro (⟨_, h⟩ | ⟨h, _⟩)
          · exact h
          · exact absurd h (by decide)
      · rw [if_neg (by decide)]
        constructor
        · exact fun h => Or.inr ⟨rfl, h⟩
        · rintro (⟨h, _⟩ | ⟨_, h⟩)
          · exact absurd h (by decide)
          · exact h
    have hrm : (¬(resolution ≠ "original" ∧ resMismatch resolution i = true)) ↔
        (resolution ≠ "original" → ∀ wh, RES_MAP resolution = some wh →
          (i.width, i.height) = wh) := by
      unfold resMismatch
      cases hR : RES_MAP resolution with
      | none => simp
      | some wh =>
        simp only [decide_eq_true_eq]
        constructor
        · intro h hro w hw
          injection hw with e
          subst e
          by_contra hne
          exact h ⟨hro, hne⟩
        · rintro h ⟨hro, hne⟩
          exact hne (h hro wh rfl)
    unfold specs_match specs_match_amended_core
    rw [ite_some_false_eq, ite_some_false_eq, ite_some_false_eq, ite_some_false_eq,
      not_not, not_not, hcm, hrm]
    by_cases hfo : fps = "original"
    · rw [if_pos hfo, bitrate_gates_iff]
      subst hfo
      simp only [ne_eq, not_true_eq_false, false_implies, true_and]
    · obtain ⟨tf, htf⟩ := fpsTarget_some_of_valid fps hf hfo
      rw [if_neg hfo]
      simp only [fps_gate, htf]
      rw [ite_some_false_eq, bitrate_gates_iff]
      have hfc : (¬(tf ≠ 0 ∧ i.fps ≠ 0 ∧ (1 : ℚ) / 10 < |i.fps - tf|)) ↔
          (fps ≠ "original" → ∀ tfx, fpsTarget fps = some tfx → tfx ≠ 0 → i.fps ≠ 0 →
            |i.fps - tfx| ≤ 1 / 10) := by
        constructor
        · intro h _ tfx htfx h0 hs
          rw [htf] at htfx
          injection htfx with e
          subst e
          push_neg at h
          exact h h0 hs
        · rintro h ⟨h0, hs, hlt⟩
          exact absurd (h hfo tf htf h0 hs) (not_le.mpr hlt)
      rw [hfc]
      simp only [ne_eq, and_assoc]
      constructor
      · rintro ⟨a, b, c, d, e, rest⟩
        exact ⟨a, b, c, d, fun h1 tfx h2 => e h1 tfx (htf.trans h2), rest⟩
      · rintro ⟨a, b, c, d, e, rest⟩
        exact ⟨a, b, c, d, fun h1 tfx h2 => e h1 tfx (htf.symm.trans h2), rest⟩

/-- C2 counterexample: a probe record whose frame rate is unknown
(`fps = 0`, e.g. an unparseable `r_frame_rate`) with a non-original target
fps of 23.976.  The code skips the fps tolerance check (`src_fps` is falsy)
and accepts the remux, while the claim as written demands
`|src_fps − target_fps| ≤ 0.1`, which fails at 0 vs 23.976. -/
theorem c2_claim_counterexample :
    specs_match (some ⟨"h264", 1920, 1080, 0, 0, "aac", 0⟩)
        "h264" "original" "23.976" "6M" "192k" = some true ∧
    ¬ specs_match_claim (some ⟨"h264", 1920, 1080, 0, 0, "aac", 0⟩)
        "h264" "original" "23.976" "6M" "192k" := by
  constructor
  · simp only [specs_match]
    rw [if_neg (by decide), if_neg (by decide), if_neg (by decide),
      if_neg (by decide), if_neg (by decide)]
    simp only [fps_gate, show fpsTarget "23.976" = some (24000 / 1001) from rfl]
    rw [if_neg (fun h => h.2.1 rfl)]
    unfold bitrate_gates
    dsimp only
    rw [if_neg (fun h => h.2.1 rfl), if_neg (fun h => h.2.1 rfl)]
  · rintro ⟨i, hi, -, -, -, -, hfps, -, -⟩
    injection hi with e
    subst e
    have h1 := hfps (by decide) (24000 / 1001) rfl
    have h2 : |(0 : ℚ) - 24000 / 1001| ≤ 1 / 10 := h1
    rw [zero_sub, abs_neg, abs_of_nonneg (by norm_num)] at h2
    norm_num at h2

/-- Witness for the C2 characterisation at a concrete matching input. -/
theorem c2_characterisation_witness :
    (("h265" : String) = "h264" ∨ ("h265" : String) = "h265") ∧
    ("original" : String) ∈ VALID_FPS ∧
    (specs_match (some ⟨"hevc", 1280, 720, 0, 0, "aac", 0⟩)
        "h265" "720p" "original" "4M" "128k" = some true ↔
      specs_match_amended (some ⟨"hevc", 1280, 720, 0, 0, "aac", 0⟩)
        "h265" "720p" "original" "4M" "128k") :=
  ⟨Or.inr rfl, by decide,
    c2_specs_match_characterisation _ _ _ _ _ _ (Or.inr rfl) (by decide)⟩

/-! ## Proofs: C3 — transcode progress reporting (TranscodeJob._run) -/

theorem pyInt_eq_floor (q : ℚ) (h : 0 ≤ q) : pyInt q = ⌊q⌋ :=
  if_neg (not_lt.mpr h)

theorem pct_arg_nonneg (d : ℚ) (us : Int) (hd : 0 < d) (hus : 0 ≤ us) :
    (0 : ℚ) ≤ (us : ℚ) / (d * 1000000) * 100 := by
  have hd6 : (0 : ℚ) < d * 1000000 := by positivity
  have hc : (0 : ℚ) ≤ (us : ℚ) := by exact_mod_cast hus
  exact mul_nonneg (div_nonneg hc hd6.le) (by norm_num)

theorem progressPct_formula (d : ℚ) (us : Int) (hd : 0 < d) (hus : 0 ≤ us) :
    progressPct d us = min 99 ⌊(us : ℚ) / (d * 1000000) * 100⌋ := by
  unfold progressPct
  rcases lt_or_eq_of_le hus with h | h
  · rw [if_pos ⟨hd, h⟩, pyInt_eq_floor _ (pct_arg_nonneg d us hd hus)]
  · rw [if_neg (fun hg => absurd hg.2 (by omega))]
    subst h
    norm_num

theorem progressPct_le_99 (d : ℚ) (us : Int) : progressPct d us ≤ 99 := by
  unfold progressPct
  split
  · exact min_le_left _ _
  · norm_num

theorem progressPct_nonneg (d : ℚ) (us : Int) : 0 ≤ progressPct d us := by
  unfold progressPct
  split
  · rename_i hg
    refine le_min (by norm_num) ?_
    rw [pyInt_eq_floor _ (pct_arg_nonneg d us hg.1 hg.2.le)]
    exact Int.floor_nonneg.mpr (pct_arg_nonneg d us hg.1 hg.2.le)
  · exact le_refl 0

theorem progressPct_mono (d : ℚ) {us1 us2 : Int} (h : us1 ≤ us2) :
    progressPct d us1 ≤ progressPct d us2 := by
  by_cases hd : 0 < d
  · by_cases h1 : 0 < us1
    · have h2 : 0 < us2 := lt_of_lt_of_le h1 h
      unfold progressPct
      rw [if_pos ⟨hd, h1⟩, if_pos ⟨hd, h2⟩]
      apply min_le_min le_rfl
      rw [pyInt_eq_floor _ (pct_arg_nonneg d us1 hd h1.le),
        pyInt_eq_floor _ (pct_arg_nonneg d us2 hd h2.le)]
      apply Int.floor_le_floor
      have hcast : (us1 : ℚ) ≤ (us2 : ℚ) := by exact_mod_cast h
      have hpos : (0 : ℚ) < d * 1000000 := by positivity
      exact mul_le_mul_of_nonneg_right ((div_le_div_iff_of_pos_right hpos).mpr hcast)
        (by norm_num)
    · calc progressPct d us1 = 0 := by
            unfold progressPct
            exact if_neg (fun hg => h1 hg.2)
        _ ≤ progressPct d us2 := progressPct_nonneg d us2
  · unfold progressPct
    rw [if_neg (fun hg => hd hg.1), if_neg (fun hg => hd hg.1)]

theorem progressEta_formula (d e : ℚ) (us : Int) (he : 0 ≤ e)
    (hp : 0 < progressPct d us) :
    progressEta d e us =
      ⌊e * (100 - (progressPct d us : ℚ)) / (progressPct d us : ℚ)⌋ := by
  have hg : 0 < d ∧ 0 < us := by
    by_contra hg
    unfold progressPct at hp
    rw [if_neg hg] at hp
    exact absurd hp (by norm_num)
  have hpq : (0 : ℚ) < (progressPct d us : ℚ) := by exact_mod_cast hp
  have h99 : (progressPct d us : ℚ) ≤ 99 := by exact_mod_cast progressPct_le_99 d us
  have harg : (0 : ℚ) ≤ e / (progressPct d us : ℚ) * (100 - (progressPct d us : ℚ)) := by
    apply mul_nonneg (div_nonneg he hpq.le)
    linarith
  unfold progressEta
  rw [if_pos hg, if_pos hp, pyInt_eq_floor _ harg, div_mul_eq_mul_div]

theorem emittedPcts_chain (d : ℚ) (l : List Int) (rc : Int) (a : Bool)
    (hl : l.Chain' (· ≤ ·)) : (emittedPcts d l rc a).Chain' (· ≤ ·) := by
  unfold emittedPcts
  apply List.Chain'.append
  · exact List.chain'_map_of_chain' (progressPct d)
      (fun a b hab => progressPct_mono d hab) hl
  · split <;> simp
  · intro x hx y hy
    have hy100 : y = 100 := by
      split at hy
      · exact (by simpa using hy : (100 : Int) = y).symm
      · simp at hy
    subst hy100
    rw [List.getLast?_map, Option.mem_def, Option.map_eq_some'] at hx
    obtain ⟨u, -, rfl⟩ := hx
    have := progressPct_le_99 d u
    omega

/-- C3: while the source duration is known, every progress block reports
`pct = min(99, floor(out_time_us / duration_us * 100))` and, once `pct > 0`,
`eta = floor(elapsed * (100 - pct) / pct)`; with unknown duration both are 0;
pct is monotone in `out_time_us` and bounded by 99; over a run with
non-decreasing `out_time_us` the reported sequence is non-decreasing, stays
at most 99, and the single final 100 tick is appended exactly on clean exit
while still active. -/
theorem c3_progress_reporting (d e : ℚ) (us : Int) (l : List Int) (rc : Int) (a : Bool)
    (hd : 0 < d) (hus : 0 ≤ us) (he : 0 ≤ e) (hl : l.Chain' (· ≤ ·)) :
    progressPct d us = min 99 ⌊(us : ℚ) / (d * 1000000) * 100⌋ ∧
    (0 < progressPct d us →
      progressEta d e us =
        ⌊e * (100 - (progressPct d us : ℚ)) / (progressPct d us : ℚ)⌋) ∧
    (∀ d0 : ℚ, ¬ 0 < d0 → ∀ u : Int, progressPct d0 u = 0 ∧ progressEta d0 e u = 0) ∧
    (∀ u1 u2 : Int, u1 ≤ u2 → progressPct d u1 ≤ progressPct d u2) ∧
    (∀ u : Int, progressPct d u ≤ 99) ∧
    (emittedPcts d l rc a).Chain' (· ≤ ·) ∧
    emittedPcts d l 0 true = l.map (progressPct d) ++ [100] := by
  refine ⟨progressPct_formula d us hd hus, progressEta_formula d e us he, ?_,
    fun u1 u2 h => progressPct_mono d h, progressPct_le_99 d,
    emittedPcts_chain d l rc a hl, rfl⟩
  intro d0 hd0 u
  constructor
  · unfold progressPct
    exact if_neg (fun hg => hd0 hg.1)
  · unfold progressEta
    exact if_neg (fun hg => hd0 hg.1)

/-- Witness for C3 at a concrete run: 10-second source, blocks at 0 s, 2 s
and 5 s of output, clean exit. -/
theorem c3_progress_reporting_witness :
    (0 : ℚ) < 10 ∧ (0 : Int) ≤ 2000000 ∧ (0 : ℚ) ≤ 5 ∧
      ([0, 2000000, 5000000] : List Int).Chain' (· ≤ ·) ∧
    (progressPct 10 2000000 = min 99 ⌊(2000000 : ℚ) / (10 * 1000000) * 100⌋ ∧
      (0 < progressPct 10 2000000 →
        progressEta 10 5 2000000 =
          ⌊5 * (100 - (progressPct 10 2000000 : ℚ)) / (progressPct 10 2000000 : ℚ)⌋) ∧
      (∀ d0 : ℚ, ¬ 0 < d0 → ∀ u : Int, progressPct d0 u = 0 ∧ progressEta d0 5 u = 0) ∧
      (∀ u1 u2 : Int, u1 ≤ u2 → progressPct 10 u1 ≤ progressPct 10 u2) ∧
      (∀ u : Int, progressPct 10 u ≤ 99) ∧
      (emittedPcts 10 [0, 2000000, 5000000] 0 true).Chain' (· ≤ ·) ∧
      emittedPcts 10 [0, 2000000, 5000000] 0 true =
        [0, 2000000, 5000000].map (progressPct 10) ++ [100]) :=
  ⟨by norm_num, by norm_num, by norm_num,
    by norm_num [List.chain'_cons, List.chain'_singleton],
    c3_progress_reporting 10 5 2000000 [0, 2000000, 5000000] 0 true
      (by norm_num) (by norm_num) (by norm_num)
      (by norm_num [List.chain'_cons, List.chain'_singleton])⟩

/-! ## Proofs: C7 — TranscodeJob run termination events -/

/-- C7: on clean exit while active the job emits the final 100 tick then
`on_complete(dst)`; on nonzero exit while active it emits `on_error` with
the exit code in the message; after `cancel()` has cleared the flag,
neither fires. -/
theorem c7_finish_events (rc : Int) (dst : String) (hrc : rc ≠ 0) :
    finishRun 0 true dst = [TCEvent.progress 100 0, TCEvent.complete dst] ∧
    finishRun rc true dst = [TCEvent.error ("FFmpeg exited with code " ++ toString rc)] ∧
    (∀ rc2 : Int, ∀ dst2 : String, finishRun rc2 (cancelActive true) dst2 = []) := by
  refine ⟨rfl, ?_, ?_⟩
  · unfold finishRun
    rw [if_neg (fun h => hrc h.1), if_pos rfl]
  · intro rc2 dst2
    unfold finishRun cancelActive
    rw [if_neg (fun h => Bool.false_ne_true h.2), if_neg Bool.false_ne_true]

/-- Witness for C7 at exit code 1. -/
theorem c7_finish_events_witness :
    (1 : Int) ≠ 0 ∧
    (finishRun 0 true "out.ts" = [TCEvent.progress 100 0, TCEvent.complete "out.ts"] ∧
      finishRun 1 true "out.ts" =
        [TCEvent.error ("FFmpeg exited with code " ++ toString (1 : Int))] ∧
      (∀ rc2 : Int, ∀ dst2 : String, finishRun rc2 (cancelActive true) dst2 = [])) :=
  ⟨by decide, c7_finish_events 1 "out.ts" (by decide)⟩

/-! ## Proofs: C1 — deterministic address allocation -/

/-- C1: for every cid the allocator yields
`ip = multicast_base ++ "." ++ ((cid % 254) + 1)` and
`port = base_port + 2·cid`, and `add_channel` records exactly these values
as the channel's metadata ip and port and returns them. -/
theorem c1_deterministic_allocation (st : ManagerState) (cid : Nat)
    (filepath filename : String) (ptc : Bool) (sp : Option String)
    (codec preset vbitrate abitrate : String) :
    auto_ip st cid = st.multicast_base ++ "." ++ toString (cid % 254 + 1) ∧
    auto_port st cid = st.base_port + 2 * cid ∧
    ((dget cid (add_channel st cid filepath filename ptc sp
        codec preset vbitrate abitrate).1.metadata).map (fun m => (m.ip, m.port))) =
      some (st.multicast_base ++ "." ++ toString (cid % 254 + 1),
        st.base_port + 2 * cid) ∧
    (add_channel st cid filepath filename ptc sp codec preset vbitrate abitrate).2 =
      (auto_ip st cid, auto_port st cid) := by
  refine ⟨rfl, by unfold auto_port; ring, ?_, rfl⟩
  unfold add_channel
  dsimp only
  rw [dget_dset_self]
  simp only [Option.map_some']
  unfold auto_ip auto_port
  rw [Nat.mul_comm]

theorem dget_get_status (st : ManagerState) (cid : Nat) :
    dget cid (get_status st) =
      (dget cid st.metadata).map (fun m => { m with running := is_running st cid }) := by
  unfold get_status
  exact dget_map_val cid _ st.metadata

/-! ## Proofs: C10 — re-adding a loaded channel -/

/-- C10: when a worker already exists for cid, `add_channel` rebinds only
its filepath and pre-transcoded flag (ip, port, encap, bitrate, loop, nic,
running are untouched), while the metadata ip and port are reset to the
allocator values; a custom worker address therefore persists on the worker
but is no longer reflected in the `get_status` snapshot. -/
theorem c10_add_channel_rebind (st : ManagerState) (cid : Nat)
    (filepath filename : String) (ptc : Bool) (sp : Option String)
    (codec preset vbitrate abitrate : String) (ch : StreamChannel)
    (hch : dget cid st.channels = some ch) :
    dget cid (add_channel st cid filepath filename ptc sp
        codec preset vbitrate abitrate).1.channels =
      some { ch with filepath := filepath, pre_transcoded := ptc } ∧
    (dget cid (add_channel st cid filepath filename ptc sp
        codec preset vbitrate abitrate).1.metadata).map (fun m => (m.ip, m.port)) =
      some (auto_ip st cid, auto_port st cid) ∧
    (dget cid (get_status (add_channel st cid filepath filename ptc sp
        codec preset vbitrate abitrate).1)).map (fun m => m.ip) =
      some (auto_ip st cid) ∧
    (ch.ip ≠ auto_ip st cid →
      (dget cid (add_channel st cid filepath filename ptc sp
          codec preset vbitrate abitrate).1.channels).map (fun c => c.ip) ≠
        (dget cid (add_channel st cid filepath filename ptc sp
          codec preset vbitrate abitrate).1.metadata).map (fun m => m.ip)) := by
  have h1 : dget cid (add_channel st cid filepath filename ptc sp
      codec preset vbitrate abitrate).1.channels =
      some { ch with filepath := filepath, pre_transcoded := ptc } := by
    unfold add_channel
    simp only [hch]
    exact dget_dset_self _ _ _
  have h2 : dget cid (add_channel st cid filepath filename ptc sp
      codec preset vbitrate abitrate).1.metadata =
      some ⟨filename, filepath, src_path_or sp filepath,
        auto_ip st cid, auto_port st cid,
        ((dget cid st.metadata).map (fun m => m.encap)).getD st.default_encap,
        st.global_bitrate.getD "",
        ((dget cid st.metadata).map (fun m => m.loop)).getD st.default_loop,
        false, ptc,
        some ("/static/thumbnails/ch" ++ toString cid ++ ".jpg"),
        codec, preset, vbitrate, abitrate⟩ := by
    unfold add_channel
    dsimp only
    exact dget_dset_self _ _ _
  refine ⟨h1, ?_, ?_, ?_⟩
  · rw [h2]
    rfl
  · rw [dget_get_status, h2]
    rfl
  · intro hne
    rw [h1, h2]
    simp only [Option.map_some', ne_eq, Option.some.injEq]
    exact hne

/-- Witness for C10: channel 0 of the sample registry carries a custom
address 239.9.9.9:9000; re-adding it rebinds the file but resets the
metadata address to the allocator values. -/
theorem c10_add_channel_rebind_witness :
    dget 0 ({ sampleState with
        channels := [(0, { sampleChannel with ip := "239.9.9.9", port := 9000 })]
      } : ManagerState).channels =
      some { sampleChannel with ip := "239.9.9.9", port := 9000 } ∧
    (dget 0 (add_channel { sampleState with
        channels := [(0, { sampleChannel with ip := "239.9.9.9", port := 9000 })] }
        0 "/media/b.ts" "b.ts" false none "copy" "fast" "6M" "192k").1.channels =
      some { sampleChannel with
              ip := "239.9.9.9", port := 9000,
              filepath := "/media/b.ts", pre_transcoded := false } ∧
    (dget 0 (add_channel { sampleState with
        channels := [(0, { sampleChannel with ip := "239.9.9.9", port := 9000 })] }
        0 "/media/b.ts" "b.ts" false none "copy" "fast" "6M" "192k").1.metadata).map
        (fun m => (m.ip, m.port)) =
      some (auto_ip sampleState 0, auto_port sampleState 0)) := by
  constructor
  · decide
  · have h := c10_add_channel_rebind { sampleState with
      channels := [(0, { sampleChannel with ip := "239.9.9.9", port := 9000 })] }
      0 "/media/b.ts" "b.ts" false none "copy" "fast" "6M" "192k"
      { sampleChannel with ip := "239.9.9.9", port := 9000 } (by decide)
    exact ⟨h.1, h.2.1⟩

/-! ## Proofs: C6 — settings partition in update_channel -/

/-- C6: an update whose present keys are all profile keys (codec, preset,
vbitrate, abitrate) returns was_running = false and leaves the worker
untouched — the exact same StreamChannel value, so none of ip, port, encap,
bitrate, loop, nic, running change and the worker is not stopped; moreover
was_running = true requires a present network key and a running worker. -/
theorem c6_settings_partition (st : ManagerState) (cid : Nat) (kw : UpdateKw)
    (ch : StreamChannel) (hch : dget cid st.channels = some ch)
    (hnet : kw.ip = none ∧ kw.port = none ∧ kw.encap = none ∧ kw.bitrate = none ∧
      kw.loop = none ∧ kw.nic = none) :
    (update_channel st cid kw).2 = false ∧
    dget cid (update_channel st cid kw).1.channels = some ch ∧
    (∀ kw2 : UpdateKw, (update_channel st cid kw2).2 = true →
      net_present kw2 = true ∧ ch.running = true) := by
  obtain ⟨h1, h2, h3, h4, h5, h6⟩ := hnet
  have hnp : net_present kw = false := by
    unfold net_present
    rw [h1, h2, h3, h4, h5, h6]
    rfl
  refine ⟨?_, ?_, ?_⟩
  · unfold update_channel
    simp only [hch, hnp]
    rfl
  · unfold update_channel
    simp only [hch, hnp]
    split <;> exact hch
  · intro kw2 hw
    unfold update_channel at hw
    simp only [hch] at hw
    by_cases hn2 : net_present kw2 = true
    · refine ⟨hn2, ?_⟩
      simp only [hn2, if_true] at hw
      exact hw
    · simp only [Bool.not_eq_true] at hn2
      simp [hn2] at hw

/-- Witness for C6: a profile-only update of the sample registry. -/
theorem c6_settings_partition_witness :
    dget 0 sampleState.channels = some sampleChannel ∧
    ((update_channel sampleState 0
        { codec := some "h265", preset := some "slow" }).2 = false ∧
    dget 0 (update_channel sampleState 0
        { codec := some "h265", preset := some "slow" }).1.channels =
      some sampleChannel ∧
    (∀ kw2 : UpdateKw, (update_channel sampleState 0 kw2).2 = true →
      net_present kw2 = true ∧ sampleChannel.running = true)) :=
  ⟨by decide,
    c6_settings_partition sampleState 0
      { codec := some "h265", preset := some "slow" } sampleChannel (by decide)
      ⟨rfl, rfl, rfl, rfl, rfl, rfl⟩⟩

/-! ## Proofs: C4 — pre-transcoded dominance -/

/-- Source: `update_settings` never writes the pre-transcoded flag. -/
theorem update_settings_keeps_pre_tc (ch : StreamChannel) (ip : Option String)
    (port : Option Nat) (encap : Option String) (bitrate : Option String)
    (loop : Option Bool) (nic : Option String) :
    ((update_settings ch ip port encap bitrate loop nic).1).pre_transcoded =
      ch.pre_transcoded := by
  obtain ⟨c0, f0, i0, p0, e0, b0, l0, n0, pt0, r0⟩ := ch
  cases r0 <;> cases ip <;> cases port <;> cases encap <;> cases bitrate <;>
    cases loop <;> cases nic <;> rfl

/-- The copy-mode command a pre-transcoded worker always builds. -/
theorem build_cmd_pre_tc (ch : StreamChannel) (nicIp : Option String)
    (hpt : ch.pre_transcoded = true) :
    ∃ cmd, build_cmd ch nicIp = some cmd ∧ List.IsInfix ["-c", "copy"] cmd := by
  unfold build_cmd
  dsimp only
  rw [if_pos (Or.inl hpt)]
  exact ⟨_, rfl, List.infix_append _ _ _⟩

/-- C4: a pre-transcoded channel streams with `-c copy`; per-channel setting
updates and `apply_global_bitrate` both preserve the pre-transcoded flag,
so the command still stream-copies after any bitrate cap is applied. -/
theorem c4_pre_transcoded_dominance (ch : StreamChannel) (nicIp : Option String)
    (hpt : ch.pre_transcoded = true) :
    (∃ cmd, build_cmd ch nicIp = some cmd ∧ List.IsInfix ["-c", "copy"] cmd) ∧
    (∀ ip port encap bitrate loop nic,
      ((update_settings ch ip port encap bitrate loop nic).1).pre_transcoded = true ∧
      (∃ cmd, build_cmd (update_settings ch ip port encap bitrate loop nic).1 nicIp =
          some cmd ∧ List.IsInfix ["-c", "copy"] cmd)) ∧
    (∀ st : ManagerState, ∀ b : String, ∀ cid : Nat,
      dget cid st.channels = some ch →
      ∃ ch2, dget cid (apply_global_bitrate st b).channels = some ch2 ∧
        ch2.pre_transcoded = true ∧
        ∃ cmd2, build_cmd ch2 nicIp = some cmd2 ∧ List.IsInfix ["-c", "copy"] cmd2) := by
  refine ⟨build_cmd_pre_tc ch nicIp hpt, ?_, ?_⟩
  · intro ip port encap bitrate loop nic
    have hpt2 : ((update_settings ch ip port encap bitrate loop nic).1).pre_transcoded
        = true :=
      (update_settings_keeps_pre_tc ch ip port encap bitrate loop nic).trans hpt
    exact ⟨hpt2, build_cmd_pre_tc _ nicIp hpt2⟩
  · intro st b cid hch
    unfold apply_global_bitrate
    dsimp only
    rw [dget_map_val, hch]
    by_cases hm : meta_pre_tc st cid = false
    · refine ⟨_, rfl, ?_⟩
      simp only [hm, if_pos]
      exact ⟨hpt, build_cmd_pre_tc _ nicIp hpt⟩
    · refine ⟨_, rfl, ?_⟩
      simp only [if_neg hm]
      exact ⟨hpt, build_cmd_pre_tc _ nicIp hpt⟩

/-- Witness for C4 on the sample pre-transcoded worker. -/
theorem c4_pre_transcoded_dominance_witness :
    sampleChannel.pre_transcoded = true ∧
    ((∃ cmd, build_cmd sampleChannel none = some cmd ∧
        List.IsInfix ["-c", "copy"] cmd) ∧
    (∀ ip port encap bitrate loop nic,
      ((update_settings sampleChannel ip port encap bitrate loop nic).1).pre_transcoded
          = true ∧
      (∃ cmd, build_cmd (update_settings sampleChannel ip port encap bitrate loop nic).1
          none = some cmd ∧ List.IsInfix ["-c", "copy"] cmd)) ∧
    (∀ st : ManagerState, ∀ b : String, ∀ cid : Nat,
      dget cid st.channels = some sampleChannel →
      ∃ ch2, dget cid (apply_global_bitrate st b).channels = some ch2 ∧
        ch2.pre_transcoded = true ∧
        ∃ cmd2, build_cmd ch2 none = some cmd2 ∧ List.IsInfix ["-c", "copy"] cmd2)) :=
  ⟨by decide, c4_pre_transcoded_dominance sampleChannel none (by decide)⟩

/-! ## Proofs: C9 — remove_channel -/

/-- Source: `stop` never touches the transcode-job map. -/
theorem stop_channel_keeps_jobs (st : ManagerState) (cid : Nat) :
    (stop_channel st cid).transcode_jobs = st.transcode_jobs := by
  unfold stop_channel
  split
  · rfl
  · rfl

/-- C9 counterexample: `remove_channel` has no `return` statement — its
value is `None` and carries no file paths, against the claim that it
returns the paths to erase.  (The DELETE route gathers those paths from the
metadata itself; see `c9_remove_channel_effects`.) -/
theorem c9_claim_counterexample :
    (remove_channel sampleState 0).2 = none := by
  rfl

/-- C9 (amended): `remove_channel` cancels and drops the transcode job
entry, stops and drops the worker, drops the metadata — afterwards no
registry entry for the cid remains — and returns `None`; the file paths to
erase (`src_path`, `filepath`, the thumbnail) are computed and deleted by
the HTTP route from the metadata it read before calling. -/
theorem c9_remove_channel_effects (st : ManagerState) (cid : Nat)
    (thumbDir : String) (m : ChannelMeta) (hm : dget cid st.metadata = some m) :
    dget cid (remove_channel st cid).1.channels = none ∧
    dget cid (remove_channel st cid).1.metadata = none ∧
    dget cid (remove_channel st cid).1.transcode_jobs = none ∧
    (remove_channel st cid).2 = none ∧
    (remove_route st cid thumbDir).2 =
      (if m.src_path = m.filepath then [m.src_path]
        else [m.src_path, m.filepath]) ++
        [thumbDir ++ "/ch" ++ toString cid ++ ".jpg"] ∧
    (remove_route st cid thumbDir).1 = (remove_channel st cid).1 := by
  refine ⟨?_, ?_, ?_, rfl, ?_, rfl⟩
  · exact dget_dpop_self _ _
  · exact dget_dpop_self _ _
  · show dget cid (stop_channel (cancel_transcode st cid) cid).transcode_jobs = none
    rw [stop_channel_keeps_jobs]
    exact dget_dpop_self _ _
  · unfold remove_route
    dsimp only
    rw [hm]

/-- Witness for C9 on the sample registry. -/
theorem c9_remove_channel_effects_witness :
    dget 0 sampleState.metadata = some sampleMeta ∧
    (dget 0 (remove_channel sampleState 0).1.channels = none ∧
    dget 0 (remove_channel sampleState 0).1.metadata = none ∧
    dget 0 (remove_channel sampleState 0).1.transcode_jobs = none ∧
    (remove_channel sampleState 0).2 = none ∧
    (remove_route sampleState 0 "frontend/static/thumbnails").2 =
      (if sampleMeta.src_path = sampleMeta.filepath then [sampleMeta.src_path]
        else [sampleMeta.src_path, sampleMeta.filepath]) ++
        ["frontend/static/thumbnails" ++ "/ch" ++ toString (0 : Nat) ++ ".jpg"] ∧
    (remove_route sampleState 0 "frontend/static/thumbnails").1 =
      (remove_channel sampleState 0).1) :=
  ⟨by decide,
    c9_remove_channel_effects sampleState 0 "frontend/static/thumbnails" sampleMeta
      (by decide)⟩

/-! ## Proofs: C5 — state round-trip -/

/-- Folding keyed dict writes of fresh keys appends them in order. -/
theorem foldl_dset_append_map {α β : Type} (f : β → α) (l : List (Nat × β))
    (acc : List (Nat × α))
    (hdisj : ∀ p ∈ l, acc.any (fun q => q.1 == p.1) = false)
    (hnodup : (l.map Prod.fst).Nodup) :
    l.foldl (fun a p => dset p.1 (f p.2) a) acc =
      acc ++ l.map (fun p => (p.1, f p.2)) := by
  induction l generalizing acc with
  | nil => simp
  | cons p r ih =>
    have hp : acc.any (fun q => q.1 == p.1) = false := hdisj p (List.mem_cons_self p r)
    have hset : dset p.1 (f p.2) acc = acc ++ [(p.1, f p.2)] := by
      unfold dset
      rw [if_neg (by simp [hp])]
    simp only [List.map_cons, List.nodup_cons] at hnodup
    rw [List.foldl_cons, hset, ih]
    · simp
    · intro q hq
      have hq1 : acc.any (fun x => x.1 == q.1) = false :=
        hdisj q (List.mem_cons_of_mem p hq)
      have hpq : p.1 ≠ q.1 := by
        intro he
        exact hnodup.1 (he ▸ List.mem_map_of_mem Prod.fst hq)
      simp [List.any_append, hq1, hpq]
    · exact hnodup.2

/-- C5 counterexample: a document produced by `_save_state` whose
`media_path` is empty (and with no persisted channels, so every filepath
trivially resolves) does not round-trip: the loader ignores the falsy
media_path and keeps its constructor default, so saving again yields a
different document even modulo `_`-comment keys and transient fields. -/
theorem c5_claim_counterexample :
    strip_comment_keys
        (save_state (load_state (fun _ => true) freshState (save_state emptyPathState))) ≠
      strip_comment_keys (save_state emptyPathState) := by
  decide

/-- C5 (amended): loading a saved document into a fresh manager (empty
metadata, as in `__init__`) and saving again reproduces the document modulo
`_`-comment keys, provided every persisted channel's filepath resolves, the
persisted channel keys are distinct, and the document's `media_path` is
non-empty (an empty media_path is not restored — the loader keeps its
constructor default). -/
theorem c5_state_roundtrip (fe : String → Bool) (st0 : ManagerState) (doc : StateDoc)
    (hmeta : st0.metadata = [])
    (hfiles : ∀ p ∈ doc.channels, p.2.filepath ≠ "" ∧ fe p.2.filepath = true)
    (hnodup : (doc.channels.map Prod.fst).Nodup)
    (hmp : doc.media_path ≠ "") :
    strip_comment_keys (save_state (load_state fe st0 doc)) =
      strip_comment_keys doc := by
  have hrestored : doc.channels.filter
      (fun p => (p.2.filepath != "") && fe p.2.filepath) = doc.channels := by
    apply List.filter_eq_self.mpr
    intro p hp
    obtain ⟨h1, h2⟩ := hfiles p hp
    simp [h1, h2]
  unfold save_state load_state strip_comment_keys
  dsimp only
  rw [hrestored, hmeta]
  simp only [StateDoc.mk.injEq]
  refine ⟨?_, ?_, ?_, trivial, ?_, trivial, ?_⟩
  · simp [List.filter_filter]
  · by_cases hq : doc.global_bitrate = "" <;> simp [hq]
  · by_cases hq : doc.selected_nic = "" <;> simp [hq]
  · rw [if_neg hmp]
  · rw [foldl_dset_append_map meta_from_doc doc.channels [] (fun p _ => rfl)
      hnodup]
    simp only [List.nil_append, List.map_map]
    have hid : ∀ p : Nat × ChannelDoc,
        (p.1, clean_meta (meta_from_doc p.2)) = p := fun p => rfl
    calc doc.channels.map ((fun p => (p.1, clean_meta p.2)) ∘
          (fun p => (p.1, meta_from_doc p.2)))
        = doc.channels.map (fun p => p) := List.map_congr_left (fun p _ => hid p)
      _ = doc.channels := by simp

/-- Witness for the C5 round-trip at a concrete one-channel document. -/
theorem c5_state_roundtrip_witness :
    freshState.metadata = [] ∧
    (∀ p ∈ sampleDoc.channels, p.2.filepath ≠ "" ∧ (fun _ => true) p.2.filepath = true) ∧
    (sampleDoc.channels.map Prod.fst).Nodup ∧
    sampleDoc.media_path ≠ "" ∧
    strip_comment_keys (save_state (load_state (fun _ => true) freshState sampleDoc)) =
      strip_comment_keys sampleDoc :=
  ⟨rfl, by decide, by decide, by decide,
    c5_state_roundtrip (fun _ => true) freshState sampleDoc rfl (by decide)
      (by decide) (by decide)⟩

/-! ## Proofs: app.py — upload / retranscode parameter validation (C8) -/

/-- C8 counterexample: an upload with an unknown codec and an unknown
preset, under a global profile whose preset is "medium".  The upload does
not fail (no error path exists): the codec silently becomes "copy", and the
invalid preset falls back to the fixed "fast" — not to the global default
"medium" — contradicting both halves of the claim for uploads. -/
theorem c8_claim_counterexample :
    upload_sanitize
        ⟨"h264", "medium", "8M", "192k", "1080p", "original"⟩
        ⟨"mpeg2", "veryslow", "8M", "192k", "1080p", "original"⟩ =
      ⟨"copy", "fast", "8M", "192k", "1080p", "original"⟩ ∧
    (upload_sanitize
        ⟨"h264", "medium", "8M", "192k", "1080p", "original"⟩
        ⟨"mpeg2", "veryslow", "8M", "192k", "1080p", "original"⟩).preset ≠
      ("medium" : String) := by
  constructor
  · decide
  · decide

/-- C8 (amended): on retranscode an invalid codec fails with an error and
every other invalid value falls back to the global default; on upload
nothing fails — invalid bitrates fall back to the global defaults while an
invalid codec, preset, resolution or fps falls back to the fixed values
copy / fast / original / original respectively. -/
theorem c8_validation_fallbacks (gtc tc r : TCProfile) :
    (tc.codec ∉ VALID_CODECS →
      retranscode_sanitize gtc tc = Except.error ("Invalid codec: " ++ tc.codec)) ∧
    (retranscode_sanitize gtc tc = Except.ok r →
      tc.codec ∈ VALID_CODECS ∧ r.codec = tc.codec ∧
      r.preset = (if tc.preset ∈ VALID_PRESETS then tc.preset else gtc.preset) ∧
      r.resolution = (if tc.resolution ∈ VALID_RESOLUTIONS then tc.resolution
        else gtc.resolution) ∧
      r.fps = (if tc.fps ∈ VALID_FPS then tc.fps else gtc.fps) ∧
      r.vbitrate = (if bitrate_re_match tc.vbitrate then tc.vbitrate
        else gtc.vbitrate) ∧
      r.abitrate = (if bitrate_re_match tc.abitrate then tc.abitrate
        else gtc.abitrate)) ∧
    ((upload_sanitize gtc tc).codec =
        (if tc.codec ∈ VALID_CODECS then tc.codec else "copy") ∧
      (upload_sanitize gtc tc).preset =
        (if tc.preset ∈ VALID_PRESETS then tc.preset else "fast") ∧
      (upload_sanitize gtc tc).resolution =
        (if tc.resolution ∈ VALID_RESOLUTIONS then tc.resolution else "original") ∧
      (upload_sanitize gtc tc).fps =
        (if tc.fps ∈ VALID_FPS then tc.fps else "original") ∧
      (upload_sanitize gtc tc).vbitrate =
        (if bitrate_re_match tc.vbitrate then tc.vbitrate else gtc.vbitrate) ∧
      (upload_sanitize gtc tc).abitrate =
        (if bitrate_re_match tc.abitrate then tc.abitrate else gtc.abitrate)) := by
  refine ⟨?_, ?_, rfl, rfl, rfl, rfl, rfl, rfl⟩
  · intro hc
    unfold retranscode_sanitize
    rw [if_pos hc]
  · intro hok
    unfold retranscode_sanitize at hok
    by_cases hc : tc.codec ∈ VALID_CODECS
    · rw [if_neg (fun hn => hn hc)] at hok
      injection hok with he
      subst he
      exact ⟨hc, rfl, rfl, rfl, rfl, rfl, rfl⟩
    · rw [if_pos hc] at hok
      exact absurd hok (by simp)

/-- Witness for C8: an unknown codec makes retranscode fail with the
expected error. -/
theorem c8_validation_fallbacks_witness :
    ("mpeg2" : String) ∉ VALID_CODECS ∧
    retranscode_sanitize ⟨"h264", "fast", "8M", "192k", "1080p", "original"⟩
        ⟨"mpeg2", "fast", "8M", "192k", "1080p", "original"⟩ =
      Except.error ("Invalid codec: " ++ "mpeg2") :=
  ⟨by decide,
    (c8_validation_fallbacks
      ⟨"h264", "fast", "8M", "192k", "1080p", "original"⟩
      ⟨"mpeg2", "fast", "8M", "192k", "1080p", "original"⟩
      ⟨"h265", "slow", "4M", "128k", "720p", "30"⟩).1 (by decide)⟩
